import Mathlib

/-!
Verification of the Cognito utility layer (`src/env.rs`, `src/errors.rs`,
`src/util.rs`). The facade `CognitoUtil` exposes two public operations,
`get_username_from_email` and `delete_email_for_user`, built on the shared
helper `get_username_from_attribute`. We embed the data model and the three
operations as pure Lean functions; each operation additionally returns the
ordered list of client calls it issued, so that temporal claims about call
counts and ordering can be stated and proved.
-/

namespace Cognito

/-- The closed set of configuration keys, from `define_env_config!` in
`src/env.rs`: `CognitoRegion => COGNITO_REGION`,
`CognitoUserPoolId => COGNITO_USER_POOL_ID`. -/
inductive EnvKey where
  | CognitoRegion
  | CognitoUserPoolId
deriving DecidableEq, Repr

/-- The environment-variable name each key maps to (`src/env.rs`). -/
def EnvKey.name : EnvKey → String
  | .CognitoRegion => "COGNITO_REGION"
  | .CognitoUserPoolId => "COGNITO_USER_POOL_ID"

/-- The error kinds produced by the operations: a missing-configuration
error naming the key (from the `fractic_env_config` accessor), the
callout/connection error wrapping an SDK error description
(`CognitoCalloutError::with_debug`), and `CriticalError` for
invariant violations. -/
inductive ServerError where
  | ConfigError (key : String)
  | CognitoCalloutError (debug : String)
  | CriticalError (msg : String)
deriving DecidableEq, Repr

/-- The configuration value set: an immutable mapping from keys to optional
string values (`EnvVariables<CognitoEnvConfig>`). -/
structure EnvVariables where
  lookup : EnvKey → Option String

/-- Modelled from the spec: the configuration accessor of the external
`fractic_env_config` crate (`self.env.get(&key)?`), whose code is not in
this repository. Per the spec it returns the key's string value or fails
with a descriptive missing-configuration error identifying the key name. -/
def EnvVariables.get (env : EnvVariables) (key : EnvKey) :
    Except ServerError String :=
  match env.lookup key with
  | some v => Except.ok v
  | none => Except.error (ServerError.ConfigError key.name)

/-- A directory user record, restricted to the one field the code reads:
`UserType.username` is an `Option<String>`. -/
structure UserType where
  username : Option String
deriving DecidableEq, Repr

/-- `ListUsersOutput`: the `users` field is `Option<Vec<UserType>>`. -/
structure ListUsersOutput where
  users : Option (List UserType)
deriving DecidableEq, Repr

/-- `AdminDeleteUserAttributesOutput` carries no data the code reads. -/
structure AdminDeleteUserAttributesOutput where
deriving DecidableEq, Repr

/-- A transport/SDK-level error (`SdkError<...>`), modelled by the debug
description the code extracts from it via
`CognitoCalloutError::with_debug(&e)`. -/
structure SdkError where
  debug : String
deriving DecidableEq, Repr

/-- A record of one outbound client call with its exact arguments, used to
state how many calls an operation issues and in what order. -/
inductive ClientCall where
  | listUsers (user_pool_id : String) (filter : String) (limit : Int)
  | adminDeleteUserAttributes (user_pool_id : String) (username : String)
      (attributes : List String)
deriving DecidableEq, Repr

/-- Whether a recorded call is a `list_users` call. -/
def ClientCall.isListUsers : ClientCall → Bool
  | .listUsers _ _ _ => true
  | _ => false

/-- Whether a recorded call is an `admin_delete_user_attributes` call. -/
def ClientCall.isAdminDelete : ClientCall → Bool
  | .adminDeleteUserAttributes _ _ _ => true
  | _ => false

/-- The `CognitoClient` trait: `list_users(user_pool_id, filter, limit)`
and `admin_delete_user_attributes(user_pool_id, username, attributes)`,
each returning its output or an SDK error. A deterministic behaviour
function per operation models one client implementation. -/
structure CognitoClient where
  list_users : String → String → Int → Except SdkError ListUsersOutput
  admin_delete_user_attributes :
      String → String → List String → Except SdkError AdminDeleteUserAttributesOutput

/-- `CognitoUtil` binds a client implementation and the configuration. -/
structure CognitoUtil where
  client : CognitoClient
  env : EnvVariables

/-- `const EMAIL_ATTRIBUTE: &str = "email"` (`src/util.rs`). -/
def EMAIL_ATTRIBUTE : String := "email"

/-- `const USER_SUB_ATTRIBUTE: &str = "sub"` (`src/util.rs`). -/
def USER_SUB_ATTRIBUTE : String := "sub"

/-- The shared helper `get_username_from_attribute` of `src/util.rs`:
reads the user-pool id from config, calls `list_users` with filter
`format!("{} = \"{}\"", attribute, value)` and limit 1, maps an SDK error
to a callout error, then pops the last user of `users.unwrap_or_default()`:
no user is `Ok(None)`; a user with a missing `username` is a
`CriticalError`; otherwise `Ok(Some(username))`. The second component is
the ordered list of client calls issued. -/
def get_username_from_attribute (self : CognitoUtil)
    (attr : String) (value : String) :
    Except ServerError (Option String) × List ClientCall :=
  match self.env.get EnvKey.CognitoUserPoolId with
  | Except.error e => (Except.error e, [])
  | Except.ok user_pool_id =>
    let filter := attr ++ " = \"" ++ value ++ "\""
    let call := ClientCall.listUsers user_pool_id filter 1
    match self.client.list_users user_pool_id filter 1 with
    | Except.error e =>
        (Except.error (ServerError.CognitoCalloutError e.debug), [call])
    | Except.ok response =>
      match (response.users.getD []).getLast? with
      | none => (Except.ok none, [call])
      | some user =>
        match user.username with
        | none =>
            (Except.error (ServerError.CriticalError
              ("User found but username is missing (attribute: " ++
                "\x27" ++ attr ++ "\x27, value: " ++
                "\x27" ++ value ++ "\x27).")), [call])
        | some username => (Except.ok (some username), [call])

/-- `get_username_from_email` of `src/util.rs`: the helper applied to the
`EMAIL_ATTRIBUTE` constant. -/
def get_username_from_email (self : CognitoUtil) (email : String) :
    Except ServerError (Option String) × List ClientCall :=
  get_username_from_attribute self EMAIL_ATTRIBUTE email

/-- `delete_email_for_user` of `src/util.rs`: reads the user-pool id from
config, looks up the username via the helper with `USER_SUB_ATTRIBUTE`;
on `None` it returns `Ok(())`; on `Some(username)` it calls
`admin_delete_user_attributes(user_pool_id, username, vec!["email"])`,
mapping an SDK error to a callout error. The second component is the
ordered list of client calls issued. -/
def delete_email_for_user (self : CognitoUtil) (user_sub : String) :
    Except ServerError Unit × List ClientCall :=
  match self.env.get EnvKey.CognitoUserPoolId with
  | Except.error e => (Except.error e, [])
  | Except.ok user_pool_id =>
    match get_username_from_attribute self USER_SUB_ATTRIBUTE user_sub with
    | (Except.error e, calls) => (Except.error e, calls)
    | (Except.ok none, calls) => (Except.ok (), calls)
    | (Except.ok (some username), calls) =>
      let call := ClientCall.adminDeleteUserAttributes user_pool_id username
        [EMAIL_ATTRIBUTE]
      match self.client.admin_delete_user_attributes user_pool_id username
          [EMAIL_ATTRIBUTE] with
      | Except.error e =>
          (Except.error (ServerError.CognitoCalloutError e.debug),
            calls ++ [call])
      | Except.ok _ => (Except.ok (), calls ++ [call])

/-! Concrete fixtures mirroring the mock client of the test module in
`src/util.rs`, used to instantiate the theorems below at concrete inputs. -/

/-- A configuration with both keys present. -/
def mockEnv : EnvVariables :=
  ⟨fun _ => some "us-east-1_123456789"⟩

/-- A configuration in which the user-pool-id key is absent. -/
def noPoolEnv : EnvVariables :=
  ⟨fun k => match k with
    | EnvKey.CognitoRegion => some "us-east-1"
    | EnvKey.CognitoUserPoolId => none⟩

/-- A client that finds one user with username `"username"` (the
`should_find_user: true` mock of the tests). -/
def foundClient : CognitoClient :=
  { list_users := fun _ _ _ => Except.ok ⟨some [⟨some "username"⟩]⟩
    admin_delete_user_attributes := fun _ _ _ => Except.ok ⟨⟩ }

/-- A client that finds no users (the `should_find_user: false` mock). -/
def notFoundClient : CognitoClient :=
  { list_users := fun _ _ _ => Except.ok ⟨some []⟩
    admin_delete_user_attributes := fun _ _ _ => Except.ok ⟨⟩ }

/-- A client that returns one matching record whose username is absent. -/
def brokenRecordClient : CognitoClient :=
  { list_users := fun _ _ _ => Except.ok ⟨some [⟨none⟩]⟩
    admin_delete_user_attributes := fun _ _ _ => Except.ok ⟨⟩ }

/-- A client that finds username `"alice"` for the subject filter
`sub = "subject-1"`, fails any other list query with a transport error,
and fails every delete call with a transport error. -/
def mixedClient : CognitoClient :=
  { list_users := fun _ filter _ =>
      if filter = "sub = \"subject-1\"" then Except.ok ⟨some [⟨some "alice"⟩]⟩
      else Except.error ⟨"list boom"⟩
    admin_delete_user_attributes := fun _ _ _ => Except.error ⟨"delete boom"⟩ }

/-- A client that resolves the subject filter to username `"alice"` and
accepts delete calls. -/
def aliceClient : CognitoClient :=
  { list_users := fun _ _ _ => Except.ok ⟨some [⟨some "alice"⟩]⟩
    admin_delete_user_attributes := fun _ _ _ => Except.ok ⟨⟩ }

/-- Helper: whenever the user-pool id resolves, the helper issues exactly
one `list_users` call, carrying the filter `<attr> = "<value>"` and limit
1, whatever the client returns. -/
theorem get_username_from_attribute_calls
    (self : CognitoUtil) (attr value pool : String)
    (hpool : self.env.get EnvKey.CognitoUserPoolId = Except.ok pool) :
    (get_username_from_attribute self attr value).2
      = [ClientCall.listUsers pool (attr ++ " = \"" ++ value ++ "\"") 1] := by
  simp only [get_username_from_attribute, hpool]
  split
  · rfl
  · split
    · rfl
    · split
      · rfl
      · rfl

/-- Helper: the call trace of `delete_email_for_user` is empty, a single
`list_users` call, or a `list_users` call followed by a single
`admin_delete_user_attributes` call. -/
theorem delete_email_for_user_calls (self : CognitoUtil) (user_sub : String) :
    (delete_email_for_user self user_sub).2 = [] ∨
    (∃ pool, (delete_email_for_user self user_sub).2
        = [ClientCall.listUsers pool ("sub" ++ " = \"" ++ user_sub ++ "\"") 1]) ∨
    (∃ pool u, (delete_email_for_user self user_sub).2
        = [ClientCall.listUsers pool ("sub" ++ " = \"" ++ user_sub ++ "\"") 1,
           ClientCall.adminDeleteUserAttributes pool u ["email"]]) := by
  cases henv : self.env.get EnvKey.CognitoUserPoolId with
  | error e =>
    left
    simp only [delete_email_for_user, henv]
  | ok pool =>
    have hcalls := get_username_from_attribute_calls self USER_SUB_ATTRIBUTE
      user_sub pool henv
    simp only [USER_SUB_ATTRIBUTE] at hcalls
    rcases hres : get_username_from_attribute self USER_SUB_ATTRIBUTE user_sub
      with ⟨r, calls⟩
    simp only [USER_SUB_ATTRIBUTE] at hres
    rw [hres] at hcalls
    simp only at hcalls
    subst hcalls
    match r with
    | Except.error e =>
      right; left
      exact ⟨pool, by
        simp only [delete_email_for_user, USER_SUB_ATTRIBUTE, henv, hres]⟩
    | Except.ok none =>
      right; left
      exact ⟨pool, by
        simp only [delete_email_for_user, USER_SUB_ATTRIBUTE, henv, hres]⟩
    | Except.ok (some u) =>
      right; right
      refine ⟨pool, u, ?_⟩
      simp only [delete_email_for_user, USER_SUB_ATTRIBUTE, henv, hres,
        EMAIL_ATTRIBUTE]
      cases self.client.admin_delete_user_attributes pool u ["email"] with
      | error e2 => rfl
      | ok out => rfl

/-- C1: for every email value, `get_username_from_email` builds the filter
`email = "<email>"` with result limit 1, issues exactly one `list_users`
call, and when the returned user list is non-empty and its last record has
a populated username field, returns `Some` of that username. -/
theorem get_username_from_email_found
    (self : CognitoUtil) (email pool u : String)
    (resp : ListUsersOutput) (user : UserType)
    (hpool : self.env.get EnvKey.CognitoUserPoolId = Except.ok pool)
    (hlist : self.client.list_users pool ("email" ++ " = \"" ++ email ++ "\"") 1
        = Except.ok resp)
    (hlast : (resp.users.getD []).getLast? = some user)
    (huser : user.username = some u) :
    get_username_from_email self email
      = (Except.ok (some u),
         [ClientCall.listUsers pool ("email" ++ " = \"" ++ email ++ "\"") 1]) := by
  simp only [get_username_from_email, get_username_from_attribute,
    EMAIL_ATTRIBUTE, hpool, hlist, hlast, huser]

/-- Witness for C1 at the tests' mock inputs. -/
theorem get_username_from_email_found_witness :
    get_username_from_email ⟨foundClient, mockEnv⟩ "abc@example.com"
      = (Except.ok (some "username"),
         [ClientCall.listUsers "us-east-1_123456789"
            ("email" ++ " = \"" ++ "abc@example.com" ++ "\"") 1]) :=
  get_username_from_email_found ⟨foundClient, mockEnv⟩ "abc@example.com"
    "us-east-1_123456789" "username" ⟨some [⟨some "username"⟩]⟩
    ⟨some "username"⟩ rfl rfl rfl rfl

/-- C2: for every email value, when `list_users` returns zero matching
records (an empty or absent user list), `get_username_from_email` returns
`Ok(None)`: absence of a match is a normal `None` result, not an error. -/
theorem get_username_from_email_not_found
    (self : CognitoUtil) (email pool : String) (resp : ListUsersOutput)
    (hpool : self.env.get EnvKey.CognitoUserPoolId = Except.ok pool)
    (hlist : self.client.list_users pool ("email" ++ " = \"" ++ email ++ "\"") 1
        = Except.ok resp)
    (hempty : resp.users.getD [] = []) :
    get_username_from_email self email
      = (Except.ok none,
         [ClientCall.listUsers pool ("email" ++ " = \"" ++ email ++ "\"") 1]) := by
  simp only [get_username_from_email, get_username_from_attribute,
    EMAIL_ATTRIBUTE, hpool, hlist, hempty, List.getLast?_nil]

/-- Witness for C2 at the tests' mock inputs. -/
theorem get_username_from_email_not_found_witness :
    get_username_from_email ⟨notFoundClient, mockEnv⟩ "abc@example.com"
      = (Except.ok none,
         [ClientCall.listUsers "us-east-1_123456789"
            ("email" ++ " = \"" ++ "abc@example.com" ++ "\"") 1]) :=
  get_username_from_email_not_found ⟨notFoundClient, mockEnv⟩ "abc@example.com"
    "us-east-1_123456789" ⟨some []⟩ rfl rfl rfl

/-- C3: for every lookup (any attribute and value), if the client returns
a matching user record whose username field is absent, the operation fails
with a `CriticalError`, not `Ok(None)`: found-but-broken and not-found are
distinguished outcomes. -/
theorem get_username_from_attribute_missing_username
    (self : CognitoUtil) (attr value pool : String)
    (resp : ListUsersOutput) (user : UserType)
    (hpool : self.env.get EnvKey.CognitoUserPoolId = Except.ok pool)
    (hlist : self.client.list_users pool (attr ++ " = \"" ++ value ++ "\"") 1
        = Except.ok resp)
    (hlast : (resp.users.getD []).getLast? = some user)
    (hnone : user.username = none) :
    get_username_from_attribute self attr value
      = (Except.error (ServerError.CriticalError
          ("User found but username is missing (attribute: " ++
            "\x27" ++ attr ++ "\x27, value: " ++
            "\x27" ++ value ++ "\x27).")),
         [ClientCall.listUsers pool (attr ++ " = \"" ++ value ++ "\"") 1]) := by
  simp only [get_username_from_attribute, hpool, hlist, hlast, hnone]

/-- Witness for C3: a matching record with an absent username yields the
critical error. -/
theorem get_username_from_attribute_missing_username_witness :
    get_username_from_attribute ⟨brokenRecordClient, mockEnv⟩ "email"
        "abc@example.com"
      = (Except.error (ServerError.CriticalError
          ("User found but username is missing (attribute: " ++
            "\x27" ++ "email" ++ "\x27, value: " ++
            "\x27" ++ "abc@example.com" ++ "\x27).")),
         [ClientCall.listUsers "us-east-1_123456789"
            ("email" ++ " = \"" ++ "abc@example.com" ++ "\"") 1]) :=
  get_username_from_attribute_missing_username ⟨brokenRecordClient, mockEnv⟩
    "email" "abc@example.com" "us-east-1_123456789" ⟨some [⟨none⟩]⟩ ⟨none⟩
    rfl rfl rfl rfl

/-- C4: for every input, if the user-pool-id configuration value is absent
then both public operations fail with a configuration error naming the
missing key `COGNITO_USER_POOL_ID`, and the (empty) call trace shows that
no client method is invoked before the failure. -/
theorem missing_user_pool_id_fails_before_any_call
    (self : CognitoUtil) (email user_sub : String)
    (h : self.env.lookup EnvKey.CognitoUserPoolId = none) :
    get_username_from_email self email
        = (Except.error (ServerError.ConfigError "COGNITO_USER_POOL_ID"), []) ∧
    delete_email_for_user self user_sub
        = (Except.error (ServerError.ConfigError "COGNITO_USER_POOL_ID"), []) := by
  constructor
  · simp only [get_username_from_email, get_username_from_attribute,
      EnvVariables.get, h, EnvKey.name]
  · simp only [delete_email_for_user, EnvVariables.get, h, EnvKey.name]

/-- Witness for C4 at a configuration missing the user-pool-id key. -/
theorem missing_user_pool_id_fails_before_any_call_witness :
    get_username_from_email ⟨foundClient, noPoolEnv⟩ "abc@example.com"
        = (Except.error (ServerError.ConfigError "COGNITO_USER_POOL_ID"), []) ∧
    delete_email_for_user ⟨foundClient, noPoolEnv⟩ "subject-1"
        = (Except.error (ServerError.ConfigError "COGNITO_USER_POOL_ID"), []) :=
  missing_user_pool_id_fails_before_any_call ⟨foundClient, noPoolEnv⟩
    "abc@example.com" "subject-1" rfl

/-- C5: for every subject identifier, when the lookup by filter
`sub = "<subject_id>"` finds no matching user, `delete_email_for_user`
returns `Ok(())` and its call trace holds the single `list_users` call:
no `admin_delete_user_attributes` call is issued at all. -/
theorem delete_email_for_user_no_match
    (self : CognitoUtil) (user_sub pool : String) (resp : ListUsersOutput)
    (hpool : self.env.get EnvKey.CognitoUserPoolId = Except.ok pool)
    (hlist : self.client.list_users pool ("sub" ++ " = \"" ++ user_sub ++ "\"") 1
        = Except.ok resp)
    (hempty : resp.users.getD [] = []) :
    delete_email_for_user self user_sub
      = (Except.ok (),
         [ClientCall.listUsers pool ("sub" ++ " = \"" ++ user_sub ++ "\"") 1]) := by
  simp only [delete_email_for_user, get_username_from_attribute,
    USER_SUB_ATTRIBUTE, hpool, hlist, hempty, List.getLast?_nil]

/-- Witness for C5: deleting for an unmatched subject is a successful
no-op. -/
theorem delete_email_for_user_no_match_witness :
    delete_email_for_user ⟨notFoundClient, mockEnv⟩ "subject-1"
      = (Except.ok (),
         [ClientCall.listUsers "us-east-1_123456789"
            ("sub" ++ " = \"" ++ "subject-1" ++ "\"") 1]) :=
  delete_email_for_user_no_match ⟨notFoundClient, mockEnv⟩ "subject-1"
    "us-east-1_123456789" ⟨some []⟩ rfl rfl rfl

/-- C6: for every subject identifier whose lookup resolves to some
username `u`, `delete_email_for_user` issues exactly one
`admin_delete_user_attributes` call, with username `u` and attribute-name
list exactly `["email"]`, after the lookup call, and on its success
returns `Ok(())`. -/
theorem delete_email_for_user_found
    (self : CognitoUtil) (user_sub pool u : String)
    (resp : ListUsersOutput) (user : UserType)
    (out : AdminDeleteUserAttributesOutput)
    (hpool : self.env.get EnvKey.CognitoUserPoolId = Except.ok pool)
    (hlist : self.client.list_users pool ("sub" ++ " = \"" ++ user_sub ++ "\"") 1
        = Except.ok resp)
    (hlast : (resp.users.getD []).getLast? = some user)
    (huser : user.username = some u)
    (hdel : self.client.admin_delete_user_attributes pool u ["email"]
        = Except.ok out) :
    delete_email_for_user self user_sub
      = (Except.ok (),
         [ClientCall.listUsers pool ("sub" ++ " = \"" ++ user_sub ++ "\"") 1,
          ClientCall.adminDeleteUserAttributes pool u ["email"]]) := by
  simp only [delete_email_for_user, get_username_from_attribute,
    USER_SUB_ATTRIBUTE, EMAIL_ATTRIBUTE, hpool, hlist, hlast, huser, hdel,
    List.singleton_append]

/-- Witness for C6: a subject resolving to username `"alice"` produces
exactly one delete-attributes call naming attribute `"email"` for
`"alice"`. -/
theorem delete_email_for_user_found_witness :
    delete_email_for_user ⟨aliceClient, mockEnv⟩ "subject-1"
      = (Except.ok (),
         [ClientCall.listUsers "us-east-1_123456789"
            ("sub" ++ " = \"" ++ "subject-1" ++ "\"") 1,
          ClientCall.adminDeleteUserAttributes "us-east-1_123456789" "alice"
            ["email"]]) :=
  delete_email_for_user_found ⟨aliceClient, mockEnv⟩ "subject-1"
    "us-east-1_123456789" "alice" ⟨some [⟨some "alice"⟩]⟩ ⟨some "alice"⟩ ⟨⟩
    rfl rfl rfl rfl rfl

/-- C7: for every attribute name and value, the filter string passed to
`list_users` is exactly the concatenation
`<attribute> = "<value>"` (attribute, space, equals sign, space, the value
wrapped in double quotes), with no escaping or other formatting — whatever
the client then returns, the issued call carries exactly this string; in
particular for attribute `"email"` and value `"abc@example.com"` it equals
exactly `email = "abc@example.com"`. -/
theorem filter_string_construction
    (self : CognitoUtil) (attr value pool : String)
    (hpool : self.env.get EnvKey.CognitoUserPoolId = Except.ok pool) :
    (get_username_from_attribute self attr value).2
        = [ClientCall.listUsers pool (attr ++ " = \"" ++ value ++ "\"") 1] ∧
    ("email" ++ " = \"" ++ "abc@example.com" ++ "\"")
        = "email = \"abc@example.com\"" := by
  refine ⟨?_, by decide⟩
  simp only [get_username_from_attribute, hpool]
  split
  · rfl
  · split
    · rfl
    · split
      · rfl
      · rfl

/-- Witness for C7 at attribute `"email"`, value `"abc@example.com"`. -/
theorem filter_string_construction_witness :
    (get_username_from_attribute ⟨foundClient, mockEnv⟩ "email"
        "abc@example.com").2
        = [ClientCall.listUsers "us-east-1_123456789"
            ("email" ++ " = \"" ++ "abc@example.com" ++ "\"") 1] ∧
    ("email" ++ " = \"" ++ "abc@example.com" ++ "\"")
        = "email = \"abc@example.com\"" :=
  filter_string_construction ⟨foundClient, mockEnv⟩ "email" "abc@example.com"
    "us-east-1_123456789" rfl

/-- C8: if a client call returns a transport/SDK error, the public
operation returns a single callout error carrying the underlying error's
description as debug context, with no retry: the failing `list_users` call
appears exactly once in the lookup's trace, and the failing
`admin_delete_user_attributes` call appears exactly once in the delete's
trace. -/
theorem callout_error_no_retry
    (self : CognitoUtil) (attr value user_sub pool u : String)
    (e e2 : SdkError) (resp : ListUsersOutput) (user : UserType)
    (hpool : self.env.get EnvKey.CognitoUserPoolId = Except.ok pool)
    (hlist_err :
      self.client.list_users pool (attr ++ " = \"" ++ value ++ "\"") 1
        = Except.error e)
    (hlist_ok :
      self.client.list_users pool ("sub" ++ " = \"" ++ user_sub ++ "\"") 1
        = Except.ok resp)
    (hlast : (resp.users.getD []).getLast? = some user)
    (huser : user.username = some u)
    (hdel : self.client.admin_delete_user_attributes pool u ["email"]
        = Except.error e2) :
    get_username_from_attribute self attr value
      = (Except.error (ServerError.CognitoCalloutError e.debug),
         [ClientCall.listUsers pool (attr ++ " = \"" ++ value ++ "\"") 1]) ∧
    delete_email_for_user self user_sub
      = (Except.error (ServerError.CognitoCalloutError e2.debug),
         [ClientCall.listUsers pool ("sub" ++ " = \"" ++ user_sub ++ "\"") 1,
          ClientCall.adminDeleteUserAttributes pool u ["email"]]) := by
  constructor
  · simp only [get_username_from_attribute, hpool, hlist_err]
  · simp only [delete_email_for_user, get_username_from_attribute,
      USER_SUB_ATTRIBUTE, EMAIL_ATTRIBUTE, hpool, hlist_ok, hlast, huser,
      hdel, List.singleton_append]

/-- Witness for C8: a client that fails the email list query, resolves the
subject query to `"alice"`, and fails the delete call. -/
theorem callout_error_no_retry_witness :
    get_username_from_attribute ⟨mixedClient, mockEnv⟩ "email" "abc@example.com"
      = (Except.error (ServerError.CognitoCalloutError "list boom"),
         [ClientCall.listUsers "us-east-1_123456789"
            ("email" ++ " = \"" ++ "abc@example.com" ++ "\"") 1]) ∧
    delete_email_for_user ⟨mixedClient, mockEnv⟩ "subject-1"
      = (Except.error (ServerError.CognitoCalloutError "delete boom"),
         [ClientCall.listUsers "us-east-1_123456789"
            ("sub" ++ " = \"" ++ "subject-1" ++ "\"") 1,
          ClientCall.adminDeleteUserAttributes "us-east-1_123456789" "alice"
            ["email"]]) :=
  callout_error_no_retry ⟨mixedClient, mockEnv⟩ "email" "abc@example.com"
    "subject-1" "us-east-1_123456789" "alice" ⟨"list boom"⟩ ⟨"delete boom"⟩
    ⟨some [⟨some "alice"⟩]⟩ ⟨some "alice"⟩
    rfl rfl rfl rfl rfl rfl

/-- C9: each public operation issues at most two client calls in
sequence: `get_username_from_email` issues at most one `list_users` call
and never a delete call; `delete_email_for_user` issues at most one
`list_users` call followed by at most one `admin_delete_user_attributes`
call, the delete coming only after the lookup. -/
theorem at_most_two_sequential_client_calls
    (self : CognitoUtil) (email user_sub : String) :
    ((get_username_from_email self email).2 = [] ∨
      ∃ l, (get_username_from_email self email).2 = [l] ∧
        l.isListUsers = true) ∧
    ((delete_email_for_user self user_sub).2 = [] ∨
      (∃ l, (delete_email_for_user self user_sub).2 = [l] ∧
        l.isListUsers = true) ∨
      (∃ l d, (delete_email_for_user self user_sub).2 = [l, d] ∧
        l.isListUsers = true ∧ d.isAdminDelete = true)) := by
  constructor
  · cases henv : self.env.get EnvKey.CognitoUserPoolId with
    | error e =>
      left
      simp only [get_username_from_email, get_username_from_attribute, henv]
    | ok pool =>
      right
      exact ⟨_, get_username_from_attribute_calls self EMAIL_ATTRIBUTE email
        pool henv, rfl⟩
  · rcases delete_email_for_user_calls self user_sub with h | ⟨pool, h⟩ |
      ⟨pool, u, h⟩
    · exact Or.inl h
    · exact Or.inr (Or.inl ⟨_, h, rfl⟩)
    · exact Or.inr (Or.inr ⟨_, _, h, rfl, rfl⟩)

/-- C10: if the lookup step inside `delete_email_for_user` fails with any
error, the operation propagates that error and its trace holds no
`admin_delete_user_attributes` call: no partial mutation is attempted on
the error path. -/
theorem delete_propagates_lookup_error
    (self : CognitoUtil) (user_sub : String) (e : ServerError)
    (h : (get_username_from_attribute self USER_SUB_ATTRIBUTE user_sub).1
        = Except.error e) :
    (delete_email_for_user self user_sub).1 = Except.error e ∧
    ∀ c ∈ (delete_email_for_user self user_sub).2,
      c.isAdminDelete = false := by
  cases henv : self.env.get EnvKey.CognitoUserPoolId with
  | error e0 =>
    have hg : get_username_from_attribute self USER_SUB_ATTRIBUTE user_sub
        = (Except.error e0, []) := by
      simp only [get_username_from_attribute, henv]
    have hd : delete_email_for_user self user_sub = (Except.error e0, []) := by
      simp only [delete_email_for_user, henv]
    rw [hg] at h
    have he : e0 = e := by
      simpa using h
    subst he
    refine ⟨?_, ?_⟩
    · rw [hd]
    · rw [hd]
      intro c hc
      exact absurd hc (List.not_mem_nil c)
  | ok pool =>
    have hcalls := get_username_from_attribute_calls self USER_SUB_ATTRIBUTE
      user_sub pool henv
    have hpair : get_username_from_attribute self USER_SUB_ATTRIBUTE user_sub
        = (Except.error e,
           [ClientCall.listUsers pool
              (USER_SUB_ATTRIBUTE ++ " = \"" ++ user_sub ++ "\"") 1]) := by
      rw [Prod.ext_iff]
      exact ⟨h, hcalls⟩
    have hd : delete_email_for_user self user_sub
        = (Except.error e,
           [ClientCall.listUsers pool
              (USER_SUB_ATTRIBUTE ++ " = \"" ++ user_sub ++ "\"") 1]) := by
      simp only [delete_email_for_user, henv, hpair]
    refine ⟨?_, ?_⟩
    · rw [hd]
    · rw [hd]
      intro c hc
      rw [List.mem_singleton] at hc
      subst hc
      rfl

/-- Witness for C10: a lookup failing with a transport error propagates
through `delete_email_for_user` and no delete call is issued. -/
theorem delete_propagates_lookup_error_witness :
    (delete_email_for_user ⟨mixedClient, mockEnv⟩ "subject-2").1
        = Except.error (ServerError.CognitoCalloutError "list boom") ∧
    ∀ c ∈ (delete_email_for_user ⟨mixedClient, mockEnv⟩ "subject-2").2,
      c.isAdminDelete = false :=
  delete_propagates_lookup_error ⟨mixedClient, mockEnv⟩ "subject-2"
    (ServerError.CognitoCalloutError "list boom") rfl

end Cognito
